import Mathlib

/-!
# Cognitive Mirrors — verification of the session/event pipeline

A shallow embedding of the "Puzzle" (Cognitive Mirrors) repository:
the `CognitiveAPI` client (`src/js/api/cognitive.js`), the application
shell `CognitiveApp` (same file, `js/app.js` section), and the server
entry points (`backend/server.js`).

Network effects are modelled by an explicit `FetchOutcome` describing
what one `fetch` call did; browser `localStorage` is an association
list from keys to stored strings.  `JSON.parse` / `JSON.stringify` are
host primitives, modelled as an inverse pair on an abstract
`StoredString` type.
-/

set_option autoImplicit false

namespace CognitiveMirrors

/-- JSON-like values exchanged between client and server (the result of
a successful `response.json()` or the argument of `JSON.stringify`). -/
inductive Json where
  | null
  | bool (b : Bool)
  | num (n : Int)
  | str (s : String)
  | arr (elems : List Json)
  | obj (fields : List (String × Json))
deriving Repr

/-- JavaScript truthiness of a (defined) value. -/
def Json.truthy : Json → Bool
  | .null => false
  | .bool b => b
  | .num n => n != 0
  | .str s => s != ""
  | .arr _ => true
  | .obj _ => true

mutual
/-- The `String(v)` coercion JavaScript applies when a defined value is
used where a string is expected (e.g. `new Error(v)`,
`localStorage.setItem(k, v)`). -/
def Json.display : Json → String
  | .null => "null"
  | .bool b => cond b "true" "false"
  | .num n => toString n
  | .str s => s
  | .arr xs => displayElems xs
  | .obj _ => "[object Object]"

/-- `Array.prototype.toString`: elements joined by commas. -/
def displayElems : List Json → String
  | [] => ""
  | [x] => Json.display x
  | x :: xs => Json.display x ++ "," ++ displayElems xs
end

/-- Reading the property `k` of a value, as JavaScript does: reading a
property of `null` throws a `TypeError`; on an object it yields the
field's value when present and `undefined` (here `none`) otherwise; on
any other defined value it yields `undefined`. -/
def readProp (j : Json) (k : String) : Except String (Option Json)
  := match j with
  | .null => .error ("TypeError: Cannot read properties of null (reading '" ++ k ++ "')")
  | .obj fields => .ok (fields.lookup k)
  | _ => .ok none

/-- `v.message || fallback` followed by `new Error(...)`: the message is
the display string of a present, truthy `message` field and the
fallback string otherwise; reading the field can itself throw. -/
def messageOr (body : Json) (fallback : String) : Except String String :=
  match readProp body "message" with
  | .error e => .error e
  | .ok none => .ok fallback
  | .ok (some v) => .ok (if v.truthy then v.display else fallback)

/-- Outcome of one `fetch` call as observed by the awaiting client:
either the promise rejects before any response arrives (network-level
failure, carrying the rejection's message), or a response arrives with
an HTTP status and a body whose `response.json()` parse either
succeeds with a value or throws with a message. -/
inductive FetchOutcome where
  | networkError (msg : String)
  | response (status : Nat) (body : Except String Json)
deriving Repr

/-- `Response.ok`: status in the inclusive range 200–299. -/
def respOk (status : Nat) : Bool := 200 ≤ status && status ≤ 299

/-- The request/response skeleton shared by every `CognitiveAPI`
operation (`src/js/api/cognitive.js`): await the fetch; on a non-ok
response parse the error body and throw `new Error(error.message ||
fallback)`; on an ok response return the parsed body.  Each operation's
final `catch` logs and rethrows, which is the identity on the error. -/
def requestJson (o : FetchOutcome) (fallback : String) : Except String Json :=
  match o with
  | .networkError msg => .error msg
  | .response status body =>
    if respOk status then
      body
    else
      match body with
      | .error e => .error e
      | .ok errJson =>
        match messageOr errJson fallback with
        | .error e => .error e
        | .ok m => .error m

/-- `CognitiveAPI.createSession` (lines 22–40): POST
`/cognitive/session/start`; non-ok responses throw
`error.message || 'Failed to create session'`; errors propagate. -/
def createSession (o : FetchOutcome) : Except String Json :=
  requestJson o "Failed to create session"

/-- `CognitiveAPI.trackEvent` (lines 42–64): same request skeleton as
`createSession` with fallback `'Failed to track event'`, but the
`catch` swallows every error and returns `null` instead of rethrowing. -/
def trackEvent (o : FetchOutcome) : Except String Json :=
  match requestJson o "Failed to track event" with
  | .ok v => .ok v
  | .error _ => .ok .null

/-- `CognitiveAPI.completeSession` (lines 66–87). -/
def completeSession (o : FetchOutcome) : Except String Json :=
  requestJson o "Failed to complete session"

/-- `CognitiveAPI.getComparativeInsights` (lines 89–109). -/
def getComparativeInsights (o : FetchOutcome) : Except String Json :=
  requestJson o "Failed to get comparative insights"

/-- `CognitiveAPI.getVisualization` (lines 111–127). -/
def getVisualization (o : FetchOutcome) : Except String Json :=
  requestJson o "Failed to get visualization"

/-- `CognitiveAPI.shareProfile` (lines 129–150). -/
def shareProfile (o : FetchOutcome) : Except String Json :=
  requestJson o "Failed to share profile"

/-- `CognitiveAPI.findCognitiveMatches` (lines 152–173). -/
def findCognitiveMatches (o : FetchOutcome) : Except String Json :=
  requestJson o "Failed to find matches"

/-- `CognitiveAPI.getRecommendation` (lines 175–191). -/
def getRecommendation (o : FetchOutcome) : Except String Json :=
  requestJson o "Failed to get recommendation"

/-- The seven user-facing operations that propagate errors, paired with
the fallback message each one hard-codes. -/
def userFacingOps : List ((FetchOutcome → Except String Json) × String) :=
  [(createSession, "Failed to create session"),
   (completeSession, "Failed to complete session"),
   (getComparativeInsights, "Failed to get comparative insights"),
   (getVisualization, "Failed to get visualization"),
   (shareProfile, "Failed to share profile"),
   (findCognitiveMatches, "Failed to find matches"),
   (getRecommendation, "Failed to get recommendation")]

/-- `CognitiveAPI.checkHealth`, code inside the `try` (lines 12–15):
fetch `/health`; a non-ok response throws `new Error('Health check
failed')`; an ok response returns the parsed body (whose parse may
itself throw). -/
def checkHealthAttempt (o : FetchOutcome) : Except String Json :=
  match o with
  | .networkError msg => .error msg
  | .response status body =>
    if respOk status then body
    else .error "Health check failed"

/-- `CognitiveAPI.checkHealth` (lines 11–20): the surrounding `catch`
turns every failure into the plain object
`{ healthy: false, error: error.message }`; the function never throws. -/
def checkHealth (o : FetchOutcome) : Json :=
  match checkHealthAttempt o with
  | .ok v => v
  | .error msg => .obj [("healthy", .bool false), ("error", .str msg)]

/-- `CognitiveAPI.handleError` (lines 194–205), the unused utility: on a
non-ok response it throws `new Error(error.message || 'HTTP <status>')`,
falling back to `'HTTP <status>'` whenever parsing or reading the
message throws; on an ok response it returns without throwing. -/
def handleError (status : Nat) (body : Except String Json) : Except String Unit :=
  if respOk status then .ok ()
  else
    let fb := "HTTP " ++ toString status
    match body with
    | .error _ => .error fb
    | .ok j =>
      match messageOr j fb with
      | .error _ => .error fb
      | .ok m => .error m

/-! ## Browser localStorage and the JSON string primitives -/

/-- A string held in `localStorage`.  Real localStorage holds raw
strings; what the client code observes about a stored string is only
(a) its text and (b) whether `JSON.parse` accepts it.  We therefore
model a stored string either as the `JSON.stringify` serialization of
a value (`jsonOf j`, on which `JSON.parse` succeeds returning `j`) or
as a plain string that is not valid JSON (`nonJson s`, on which
`JSON.parse` throws) — the latter is also the form of the raw
identifiers the app stores, such as `user_<time>_<rand>`. -/
inductive StoredString where
  | jsonOf (j : Json)
  | nonJson (s : String)
deriving Repr

mutual
/-- `JSON.stringify` on our value type (string escaping elided: the
values the app serializes contain no quotes or backslashes). -/
def Json.stringify : Json → String
  | .null => "null"
  | .bool b => cond b "true" "false"
  | .num n => toString n
  | .str s => "\"" ++ s ++ "\""
  | .arr xs => "[" ++ stringifyElems xs ++ "]"
  | .obj fs => "\x7b" ++ stringifyFields fs ++ "\x7d"

/-- Comma-separated serialization of array elements. -/
def stringifyElems : List Json → String
  | [] => ""
  | [x] => Json.stringify x
  | x :: xs => Json.stringify x ++ "," ++ stringifyElems xs

/-- Comma-separated serialization of object fields. -/
def stringifyFields : List (String × Json) → String
  | [] => ""
  | [(k, v)] => "\"" ++ k ++ "\":" ++ Json.stringify v
  | (k, v) :: fs => "\"" ++ k ++ "\":" ++ Json.stringify v ++ "," ++ stringifyFields fs
end

/-- The text of a stored string (what `localStorage.getItem` hands
back to string-typed consumers). -/
def StoredString.text : StoredString → String
  | .jsonOf j => j.stringify
  | .nonJson s => s

/-- `JSON.parse` on a stored string: the inverse of `JSON.stringify`
on serialized values, a thrown `SyntaxError` on anything else. -/
def jsonParse : StoredString → Except String Json
  | .jsonOf j => .ok j
  | .nonJson s => .error ("SyntaxError: Unexpected token in JSON: " ++ s)

/-- JavaScript truthiness of a stored string: the empty string is the
only falsy one (a serialization is never empty). -/
def StoredString.truthy : StoredString → Bool
  | .jsonOf _ => true
  | .nonJson s => s != ""

/-- `localStorage` for one origin: an association list from keys to
stored strings, first binding wins. -/
def Store : Type := List (String × StoredString)

/-- `localStorage.getItem k` (`null` when absent, here `none`). -/
def getItem (st : Store) (k : String) : Option StoredString :=
  List.lookup k st

/-- `localStorage.setItem k v`: replaces any previous binding of `k`. -/
def setItem (st : Store) (k : String) (v : StoredString) : Store :=
  (k, v) :: List.filter (fun p => p.1 != k) st


/-! ## The application shell (`js/app.js` section of the bundle) -/

/-- `CognitiveApp.getUserId`, the generated identifier (line 668):
`'user_' + Date.now() + '_' + Math.random().toString(36).substr(2, 9)`;
the clock reading and the random fragment are environment inputs. -/
def genUserId (nowMs : Nat) (rand : String) : String :=
  "user_" ++ toString nowMs ++ "_" ++ rand

/-- `CognitiveApp.getUserId` (lines 665–672): read
`cognitive_user_id`; when the stored value is absent (or the empty
string, which is falsy) generate a fresh identifier, persist it and
return it; otherwise return the stored text unchanged. -/
def getUserId (st : Store) (nowMs : Nat) (rand : String) : String × Store :=
  match getItem st "cognitive_user_id" with
  | some v =>
    if v.truthy then (v.text, st)
    else
      let uid := genUserId nowMs rand
      (uid, setItem st "cognitive_user_id" (.nonJson uid))
  | none =>
    let uid := genUserId nowMs rand
    (uid, setItem st "cognitive_user_id" (.nonJson uid))

/-- The default profile `CognitiveApp.loadUserProfile` constructs
(lines 485–496); `nowIso` is `new Date().toISOString()`. -/
def defaultProfile (userId nowIso : String) : Json :=
  .obj [("userId", .str userId),
        ("archetype", .null),
        ("sessions", .arr []),
        ("createdAt", .str nowIso),
        ("preferences", .obj [("theme", .str "dark"),
                              ("difficulty", .str "adaptive"),
                              ("hints", .bool true),
                              ("animations", .bool true)])]

/-- The localStorage key of a user's profile. -/
def profileKey (userId : String) : String := "cognitive_profile_" ++ userId

/-- `CognitiveApp.loadUserProfile` (lines 472–500): resolve the user
identifier, read `cognitive_profile_<userId>`; when a truthy blob is
stored, try to `JSON.parse` it and return the result; on a parse
failure (caught and only warned about) or when nothing truthy is
stored, build the default profile, persist its serialization under the
profile key and return it.  Returns the profile and the new store. -/
def loadUserProfile (st : Store) (nowMs : Nat) (rand : String)
    (nowIso : String) : Json × Store :=
  let (userId, st1) := getUserId st nowMs rand
  let fresh : Json × Store :=
    let p := defaultProfile userId nowIso
    (p, setItem st1 (profileKey userId) (.jsonOf p))
  match getItem st1 (profileKey userId) with
  | some stored =>
    if stored.truthy then
      match jsonParse stored with
      | .ok p => (p, st1)
      | .error _ => fresh
    else fresh
  | none => fresh

/-- The test `init` applies to `checkHealth`'s result (line 415):
`if (!health.healthy) throw new Error('API server is not available')`.
Reading `.healthy` of `null` would itself throw; on anything else the
read yields the field when present and `undefined` (falsy) otherwise. -/
def healthCheckStep (o : FetchOutcome) : Except String Unit :=
  match readProp (checkHealth o) "healthy" with
  | .error e => .error e
  | .ok none => .error "API server is not available"
  | .ok (some v) =>
    if v.truthy then .ok () else .error "API server is not available"

/-- Environment of one `CognitiveApp.init` run: the outcome of each
network request, the clock/random readings, and the outcomes of the
two out-of-repository callees (`createNeuralVisualization` from
`js/visualizations/neural.js` and `startSession` from
`js/analytics/tracker.js`, neither of which is in the sources; the
spec describes them only as steps that may fail, so their results are
inputs here). -/
structure InitEnv where
  healthFetch : FetchOutcome
  sessionFetch : FetchOutcome
  vizResult : Except String Unit
  analyticsResult : Except String Unit
  nowMs : Nat
  rand : String
  nowIso : String

/-- `CognitiveApp.startNewSession` (lines 449–470): resolve the user
identifier (persisting a fresh one if needed), issue the
session-creation request, and on success store
`String(session.sessionId)` under `cognitive_session_id`.  The store
mutations made before a failure survive it, so the store is returned
in both cases.  The fire-and-forget `trackEvent('session_start', …)`
relay comes from the out-of-repository tracker module and affects
neither the store nor control flow. -/
def startNewSession (env : InitEnv) (st : Store) :
    Except String Json × Store :=
  let (_, st1) := getUserId st env.nowMs env.rand
  match createSession env.sessionFetch with
  | .error msg => (.error msg, st1)
  | .ok session =>
    match readProp session "sessionId" with
    | .error e => (.error e, st1)
    | .ok v =>
      let sid := match v with
        | some j => j.display
        | none => "undefined"
      (.ok session, setItem st1 "cognitive_session_id" (.nonJson sid))

/-- The five top-level steps of `CognitiveApp.init`. -/
inductive InitStep where
  | health | session | profile | visuals | tracking
deriving Repr, DecidableEq

/-- The order `init` runs its steps in (lines 414–429). -/
def initOrder : List InitStep :=
  [.health, .session, .profile, .visuals, .tracking]

/-- The overlay `CognitiveApp.showError` (lines 674–694) appends: its
markup interpolates `error.message || 'An unexpected error occurred'`
and always contains a Retry button (`location.reload()`) and a
Continue Anyway button (dismiss). -/
structure ErrorOverlay where
  message : String
  hasRetryButton : Bool
  hasContinueButton : Bool
deriving Repr, DecidableEq

/-- `CognitiveApp.showError` applied to an error with message `msg`. -/
def showError (msg : String) : ErrorOverlay :=
  { message := if msg = "" then "An unexpected error occurred" else msg
    hasRetryButton := true
    hasContinueButton := true }

/-- Observable result of one `CognitiveApp.init` run. -/
structure InitResult where
  ok : Bool
  executed : List InitStep
  errorShown : Option ErrorOverlay
  finalStore : Store
  sessionVal : Option Json
  profileVal : Option Json

/-- The failure exit of `init`'s `catch` (lines 442–446): `showError`
then `return false`, with the first `k` steps having started. -/
def initFail (st : Store) (k : Nat) (msg : String) : InitResult :=
  { ok := false, executed := initOrder.take k,
    errorShown := some (showError msg), finalStore := st,
    sessionVal := none, profileVal := none }

/-- `CognitiveApp.init` (lines 409–447): health check, session
creation, profile load, visualization setup, analytics start — in that
order, inside one `try`; the first exception jumps to the `catch`,
which shows the error overlay and returns `false`; when all five steps
finish, `isInitialized` is set and `init` returns `true`. -/
def init (env : InitEnv) (st : Store) : InitResult :=
  match healthCheckStep env.healthFetch with
  | .error msg => initFail st 1 msg
  | .ok _ =>
    match startNewSession env st with
    | (.error msg, st1) => initFail st1 2 msg
    | (.ok session, st1) =>
      let (profileJson, st2) :=
        loadUserProfile st1 env.nowMs env.rand env.nowIso
      match env.vizResult with
      | .error msg => initFail st2 4 msg
      | .ok _ =>
        match env.analyticsResult with
        | .error msg => initFail st2 5 msg
        | .ok _ =>
          { ok := true, executed := initOrder, errorShown := none,
            finalStore := st2, sessionVal := some session,
            profileVal := some profileJson }

/-! ## The server (`backend/server.js`) -/

/-- The `/api/health` route handler installed by
`CognitiveServer.initializeRoutes` (part_000 lines 160–169): it always
answers `200` with a JSON body whose fields are `status: 'healthy'`,
the timestamp, uptime, memory usage, environment name and database
state — there is no `healthy` field.  Timestamp, uptime and memory are
environment readings. -/
def healthHandler (timestamp : String) (uptime : Int) (memory : Json)
    (env : String) (dbConnected : Bool) : Nat × Json :=
  (200,
   .obj [("status", .str "healthy"),
         ("timestamp", .str timestamp),
         ("uptime", .num uptime),
         ("memory", memory),
         ("environment", .str env),
         ("database", .str (if dbConnected then "connected" else "disconnected"))])

/-- An uncaught fault reaching the process-level handlers. -/
inductive Fault where
  | unhandledRejection (reason : String)
  | uncaughtException (msg : String)
deriving Repr

/-- What a process-level fault handler does. -/
structure FaultAction where
  logged : Bool
  exitCode : Option Nat
deriving Repr, DecidableEq

/-- The two process-level handlers
`CognitiveServer.initializeErrorHandling` installs (part_000 lines
219–229): `unhandledRejection` is logged (console + `logError`) and
the handler returns; `uncaughtException` is logged and then calls
`process.exit(1)`. -/
def faultHandler : Fault → FaultAction
  | .unhandledRejection _ => { logged := true, exitCode := none }
  | .uncaughtException _ => { logged := true, exitCode := some 1 }

/-! ## Concrete inputs used by the closed theorems below -/

/-- One concrete reading of the health route's environment. -/
def sampleHealthBody : Json :=
  (healthHandler "2026-01-01T00:00:00.000Z" 5 (.obj []) "development" true).2

/-- An init environment whose backend is up: the health request
returns exactly what the server's health route sends, and every other
step would succeed. -/
def envHealthy : InitEnv :=
  { healthFetch := .response 200 (.ok sampleHealthBody)
    sessionFetch := .response 200 (.ok (.obj [("sessionId", .str "s1")]))
    vizResult := .ok ()
    analyticsResult := .ok ()
    nowMs := 1700000000000
    rand := "k3j9q2x1a"
    nowIso := "2026-01-01T00:00:00.000Z" }

/-- An init environment whose backend is unreachable. -/
def envDown : InitEnv :=
  { envHealthy with healthFetch := .networkError "Failed to fetch" }

/-- A store holding only a user identifier. -/
def stUser : Store :=
  [("cognitive_user_id", StoredString.nonJson "user_1_abcdefghi")]

/-- A profile as an earlier run could have persisted it. -/
def profA : Json :=
  .obj [("userId", .str "user_1_abcdefghi"),
        ("archetype", .str "Analyst"),
        ("sessions", .arr [.str "s0"])]

/-- A store holding a user identifier and a persisted profile. -/
def stWithProfile : Store :=
  [("cognitive_user_id", StoredString.nonJson "user_1_abcdefghi"),
   (profileKey "user_1_abcdefghi", StoredString.jsonOf profA)]

/-- A store whose profile blob is not valid JSON. -/
def stCorrupt : Store :=
  [("cognitive_user_id", StoredString.nonJson "user_1_abcdefghi"),
   (profileKey "user_1_abcdefghi", StoredString.nonJson "corrupt blob")]

/-! ## Store lemmas -/

theorem getItem_setItem_self (st : Store) (k : String) (v : StoredString) :
    getItem (setItem st k v) k = some v := by
  simp [getItem, setItem, List.lookup]

theorem lookup_filter_out_ne (st : Store) (k k' : String)
    (h : k' ≠ k) :
    List.lookup k' (List.filter (fun p => p.1 != k) st) = List.lookup k' st := by
  induction st with
  | nil => rfl
  | cons p rest ih =>
    rcases p with ⟨a, b⟩
    by_cases ha : a = k
    · subst ha
      rw [List.filter_cons_of_neg (by simp)]
      rw [ih]
      simp [List.lookup, beq_eq_false_iff_ne.mpr h]
    · rw [List.filter_cons_of_pos (by simp [ha])]
      cases hx : (k' == a) with
      | true => simp [List.lookup, hx]
      | false => simp [List.lookup, hx, ih]

theorem getItem_setItem_ne (st : Store) (k k' : String) (v : StoredString)
    (h : k' ≠ k) : getItem (setItem st k v) k' = getItem st k' := by
  show List.lookup k' ((k, v) :: List.filter (fun p => p.1 != k) st)
      = List.lookup k' st
  simp only [List.lookup, beq_eq_false_iff_ne.mpr h]
  exact lookup_filter_out_ne st k k' h

/-! ## Identifier and profile lemmas -/

theorem genUserId_ne_empty (n : Nat) (r : String) : genUserId n r ≠ "" := by
  intro h
  have hl : (genUserId n r).length = 0 := by rw [h]; rfl
  unfold genUserId at hl
  rw [String.length_append, String.length_append, String.length_append] at hl
  have h5 : ("user_" : String).length = 5 := rfl
  omega

theorem userIdKey_ne_profileKey (uid : String) :
    "cognitive_user_id" ≠ profileKey uid := by
  intro h
  have hl : ("cognitive_user_id" : String).length = (profileKey uid).length :=
    congrArg String.length h
  rw [profileKey, String.length_append] at hl
  have h17 : ("cognitive_user_id" : String).length = 17 := rfl
  have h18 : ("cognitive_profile_" : String).length = 18 := rfl
  rw [h17, h18] at hl
  omega

theorem getUserId_fresh (st : Store) (n : Nat) (r : String)
    (h : getItem st "cognitive_user_id" = none) :
    getUserId st n r
      = (genUserId n r,
         setItem st "cognitive_user_id" (.nonJson (genUserId n r))) := by
  simp [getUserId, h]

theorem getUserId_some_truthy (st : Store) (n : Nat) (r : String)
    (v : StoredString) (h : getItem st "cognitive_user_id" = some v)
    (ht : v.truthy = true) : getUserId st n r = (v.text, st) := by
  simp [getUserId, h, ht]

theorem getUserId_some_falsy (st : Store) (n : Nat) (r : String)
    (v : StoredString) (h : getItem st "cognitive_user_id" = some v)
    (ht : v.truthy = false) :
    getUserId st n r
      = (genUserId n r,
         setItem st "cognitive_user_id" (.nonJson (genUserId n r))) := by
  simp [getUserId, h, ht]

theorem getUserId_stored (st : Store) (n : Nat) (r uid : String)
    (h : getItem st "cognitive_user_id" = some (.nonJson uid))
    (hne : uid ≠ "") : getUserId st n r = (uid, st) := by
  have ht : (StoredString.nonJson uid).truthy = true := by
    simp [StoredString.truthy, hne]
  exact getUserId_some_truthy st n r _ h ht

theorem getUserId_stable_step (st : Store) (n n' : Nat) (r r' : String) :
    getUserId (getUserId st n r).2 n' r' = getUserId st n r := by
  cases hv : getItem st "cognitive_user_id" with
  | none =>
    rw [getUserId_fresh st n r hv]
    exact getUserId_stored _ n' r' _
      (getItem_setItem_self st "cognitive_user_id" _)
      (genUserId_ne_empty n r)
  | some v =>
    cases ht : v.truthy with
    | true =>
      rw [getUserId_some_truthy st n r v hv ht]
      exact getUserId_some_truthy st n' r' v hv ht
    | false =>
      rw [getUserId_some_falsy st n r v hv ht]
      exact getUserId_stored _ n' r' _
        (getItem_setItem_self st "cognitive_user_id" _)
        (genUserId_ne_empty n r)

theorem loadUserProfile_stored (st : Store) (uid : String) (p : Json)
    (n : Nat) (r iso : String)
    (huid : getItem st "cognitive_user_id" = some (.nonJson uid))
    (hne : uid ≠ "")
    (hprof : getItem st (profileKey uid) = some (.jsonOf p)) :
    loadUserProfile st n r iso = (p, st) := by
  simp [loadUserProfile, getUserId_stored st n r uid huid hne, hprof,
    StoredString.truthy, jsonParse]

theorem loadUserProfile_absent (st : Store) (uid : String)
    (n : Nat) (r iso : String)
    (huid : getItem st "cognitive_user_id" = some (.nonJson uid))
    (hne : uid ≠ "")
    (hprof : getItem st (profileKey uid) = none) :
    loadUserProfile st n r iso
      = (defaultProfile uid iso,
         setItem st (profileKey uid) (.jsonOf (defaultProfile uid iso))) := by
  simp [loadUserProfile, getUserId_stored st n r uid huid hne, hprof]

theorem loadUserProfile_corrupt (st : Store) (uid s : String)
    (n : Nat) (r iso : String)
    (huid : getItem st "cognitive_user_id" = some (.nonJson uid))
    (hne : uid ≠ "") (hs : s ≠ "")
    (hprof : getItem st (profileKey uid) = some (.nonJson s)) :
    loadUserProfile st n r iso
      = (defaultProfile uid iso,
         setItem st (profileKey uid) (.jsonOf (defaultProfile uid iso))) := by
  simp [loadUserProfile, getUserId_stored st n r uid huid hne, hprof,
    StoredString.truthy, jsonParse, hs]

/-! ## The claims -/

/-- Claim C1: for every session identifier and event payload and every
outcome of the underlying request, `trackEvent` never raises to its
caller: it always resolves (first conjunct); on a network failure or a
non-2xx response it resolves to the `null` sentinel; only on success
(2xx with a parsed body) does it return the parsed response. -/
theorem c1_trackEvent_never_raises (o : FetchOutcome) :
    (∃ v, trackEvent o = .ok v) ∧
    (∀ m, o = .networkError m → trackEvent o = .ok .null) ∧
    (∀ st body, o = .response st body → respOk st = false →
      trackEvent o = .ok .null) ∧
    (∀ st j, o = .response st (.ok j) → respOk st = true →
      trackEvent o = .ok j) := by
  refine ⟨?_, ?_, ?_, ?_⟩
  · cases h : requestJson o "Failed to track event" with
    | ok v => exact ⟨v, by simp [trackEvent, h]⟩
    | error e => exact ⟨.null, by simp [trackEvent, h]⟩
  · rintro m rfl
    rfl
  · rintro st body rfl h
    cases body with
    | error e => simp [trackEvent, requestJson, h]
    | ok j =>
      cases hm : messageOr j "Failed to track event" with
      | error e => simp [trackEvent, requestJson, h, hm]
      | ok m => simp [trackEvent, requestJson, h, hm]
  · rintro st j rfl h
    simp [trackEvent, requestJson, h]

theorem c1_trackEvent_never_raises_witness :
    trackEvent (.networkError "Failed to fetch") = .ok .null ∧
    trackEvent (.response 500 (.ok (.obj []))) = .ok .null ∧
    trackEvent (.response 200 (.ok (.obj [("recorded", .bool true)])))
      = .ok (.obj [("recorded", .bool true)]) :=
  ⟨(c1_trackEvent_never_raises _).2.1 "Failed to fetch" rfl,
   (c1_trackEvent_never_raises _).2.2.1 500 _ rfl (by decide),
   (c1_trackEvent_never_raises _).2.2.2 200 _ rfl (by decide)⟩

/-- Claim C4: for every failure of the underlying health request —
backend unreachable (the fetch rejects with some message) or a non-ok
response — `checkHealth` resolves to the object
`obj [(healthy, false), (error, message)]` where the message is the
failure's message (the rejection's own message, respectively the
message `Health check failed` of the error thrown for a non-ok
response); by construction `checkHealth` returns a plain value and
never raises. -/
theorem c4_checkHealth_failure_shape :
    (∀ m, checkHealth (.networkError m)
      = .obj [("healthy", .bool false), ("error", .str m)]) ∧
    (∀ st body, respOk st = false →
      checkHealth (.response st body)
        = .obj [("healthy", .bool false),
                ("error", .str "Health check failed")]) := by
  constructor
  · intro m
    rfl
  · intro st body h
    simp [checkHealth, checkHealthAttempt, h]

theorem c4_checkHealth_failure_shape_witness :
    checkHealth (.networkError "Failed to fetch")
      = .obj [("healthy", .bool false), ("error", .str "Failed to fetch")] ∧
    checkHealth (.response 503 (.ok .null))
      = .obj [("healthy", .bool false),
              ("error", .str "Health check failed")] :=
  ⟨c4_checkHealth_failure_shape.1 "Failed to fetch",
   c4_checkHealth_failure_shape.2 503 _ (by decide)⟩

/-- Claim C2 (code bug): the server's `/api/health` route answers 200
with a body whose fields are `status: 'healthy'` etc. — it has no
`healthy` field.  `checkHealth` hands that body through unchanged, so
the `health.healthy` test in `init` reads `undefined` (falsy) and init
throws `API server is not available` even though the backend is
healthy: the health check can never be treated as passed, and `init`'s
success path is unreachable. -/
theorem c2_healthy_server_still_fails_init :
    (healthHandler "2026-01-01T00:00:00.000Z" 5 (.obj []) "development" true).1
      = 200 ∧
    checkHealth (.response 200 (.ok sampleHealthBody)) = sampleHealthBody ∧
    readProp sampleHealthBody "healthy" = .ok none ∧
    healthCheckStep (.response 200 (.ok sampleHealthBody))
      = .error "API server is not available" ∧
    (init envHealthy []).ok = false ∧
    (init envHealthy []).executed = [InitStep.health] := by
  refine ⟨rfl, rfl, rfl, rfl, rfl, rfl⟩

/-- Claim C8 counterexample: an unhandled promise rejection reaching
the handler installed by `initializeErrorHandling` is logged but the
process is not terminated — the handler returns without calling
`process.exit`, contradicting the claim that every uncaught fault
terminates the process. -/
theorem c8_unhandledRejection_does_not_exit :
    (faultHandler (.unhandledRejection "write failed")).logged = true ∧
    (faultHandler (.unhandledRejection "write failed")).exitCode = none :=
  ⟨rfl, rfl⟩

/-- Claim C8 (amended): every uncaught fault is logged; an uncaught
exception terminates the process with exit code 1 (fail-fast, relying
on the supervisor to restart), while an unhandled promise rejection is
only logged and leaves the process running. -/
theorem c8_fault_handling (f : Fault) :
    (faultHandler f).logged = true ∧
    (∀ m, f = .uncaughtException m → (faultHandler f).exitCode = some 1) ∧
    (∀ r, f = .unhandledRejection r → (faultHandler f).exitCode = none) := by
  cases f with
  | unhandledRejection r =>
    exact ⟨rfl, fun m h => Fault.noConfusion h, fun r' _ => rfl⟩
  | uncaughtException m =>
    exact ⟨rfl, fun m' _ => rfl, fun r h => Fault.noConfusion h⟩

theorem c8_fault_handling_witness :
    (faultHandler (.uncaughtException "boom")).logged = true ∧
    (faultHandler (.uncaughtException "boom")).exitCode = some 1 :=
  ⟨(c8_fault_handling _).1, (c8_fault_handling _).2.1 "boom" rfl⟩

theorem userFacingOps_are_requestJson :
    ∀ p ∈ userFacingOps, ∀ o, p.1 o = requestJson o p.2 := by
  intro p hp o
  fin_cases hp <;> rfl

/-- Claim C3 counterexample: a 500 response whose body parses to an
object carrying no message makes `createSession` throw the fixed
message `Failed to create session` — not the HTTP-status fallback
`HTTP 500` the claim describes (and which only the unused
`handleError` utility would produce). -/
theorem c3_fallback_is_not_http_status :
    createSession (.response 500 (.ok (.obj [])))
      = .error "Failed to create session" ∧
    handleError 500 (.ok (.obj [])) = .error ("HTTP " ++ toString 500) ∧
    "Failed to create session" ≠ "HTTP " ++ toString 500 := by
  refine ⟨rfl, ?_, by decide⟩
  rfl

/-- Claim C3 (amended): for every user-facing operation
(createSession, completeSession, getComparativeInsights,
getVisualization, shareProfile, findCognitiveMatches,
getRecommendation), a non-2xx response whose body parses to an object
with a non-empty server-supplied message is converted into an error
carrying that message, and into an error carrying the operation's
fixed fallback message (not an HTTP-status string) when no message
field is present; a network-level failure surfaces as an error of the
same shape carrying the rejection's message; in every case the error
propagates to the caller. -/
theorem c3_user_facing_error_policy :
    ∀ p ∈ userFacingOps,
      (∀ m, p.1 (.networkError m) = .error m) ∧
      (∀ st fields s, respOk st = false → s ≠ "" →
        List.lookup "message" fields = some (.str s) →
        p.1 (.response st (.ok (.obj fields))) = .error s) ∧
      (∀ st fields, respOk st = false →
        List.lookup "message" fields = none →
        p.1 (.response st (.ok (.obj fields))) = .error p.2) := by
  intro p hp
  have he := userFacingOps_are_requestJson p hp
  refine ⟨?_, ?_, ?_⟩
  · intro m
    rw [he]
    rfl
  · intro st fields s h hs hl
    rw [he]
    simp [requestJson, h, messageOr, readProp, hl, Json.truthy,
      Json.display, hs]
  · intro st fields h hl
    rw [he]
    simp [requestJson, h, messageOr, readProp, hl]

theorem c3_user_facing_error_policy_witness :
    createSession (.networkError "Failed to fetch")
      = .error "Failed to fetch" ∧
    completeSession
        (.response 409 (.ok (.obj [("message", .str "Session already completed")])))
      = .error "Session already completed" ∧
    getRecommendation (.response 500 (.ok (.obj [])))
      = .error "Failed to get recommendation" := by
  have h1 : (createSession, "Failed to create session") ∈ userFacingOps := by
    unfold userFacingOps
    exact List.mem_cons_self _ _
  have h2 : (completeSession, "Failed to complete session") ∈ userFacingOps := by
    unfold userFacingOps
    exact List.mem_cons_of_mem _ (List.mem_cons_self _ _)
  have h3 : (getRecommendation, "Failed to get recommendation") ∈ userFacingOps := by
    unfold userFacingOps
    repeat first
      | exact List.mem_cons_self _ _
      | apply List.mem_cons_of_mem
  exact ⟨(c3_user_facing_error_policy _ h1).1 "Failed to fetch",
    (c3_user_facing_error_policy _ h2).2.1 409
      [("message", .str "Session already completed")]
      "Session already completed" (by decide) (by decide) rfl,
    (c3_user_facing_error_policy _ h3).2.2 500 [] (by decide) rfl⟩

/-- Claim C9: the client-generated user identifier is stable —
`getUserId` generates and persists an identifier exactly when none is
stored, returns a stored identifier unchanged without touching the
store, and after any call every later call (at any later clock or
random reading) returns the same identifier with the store unchanged. -/
theorem c9_userId_stable :
    (∀ st n r, getItem st "cognitive_user_id" = none →
      getUserId st n r
        = (genUserId n r,
           setItem st "cognitive_user_id" (.nonJson (genUserId n r)))) ∧
    (∀ st n r uid,
      getItem st "cognitive_user_id" = some (.nonJson uid) → uid ≠ "" →
      getUserId st n r = (uid, st)) ∧
    (∀ st n r n' r',
      getUserId (getUserId st n r).2 n' r' = getUserId st n r) :=
  ⟨fun st n r h => getUserId_fresh st n r h,
   fun st n r uid h hne => getUserId_stored st n r uid h hne,
   fun st n r n' r' => getUserId_stable_step st n n' r r'⟩

theorem c9_userId_stable_witness :
    getUserId [] 1700000000000 "k3j9q2x1a"
      = (genUserId 1700000000000 "k3j9q2x1a",
         setItem [] "cognitive_user_id"
           (.nonJson (genUserId 1700000000000 "k3j9q2x1a"))) ∧
    getUserId stUser 8 "zzzzzzzzz"
      = ("user_1_abcdefghi", stUser) :=
  ⟨c9_userId_stable.1 [] 1700000000000 "k3j9q2x1a" rfl,
   c9_userId_stable.2.1 stUser 8 "zzzzzzzzz" "user_1_abcdefghi" rfl (by decide)⟩

/-- Claim C6: when no profile is stored for the current user
identifier, `loadUserProfile` builds the default profile — archetype
`null`, empty session list — persists its serialization under the
user's profile key and returns it; a second call (at any later clock
reading) then returns that same profile, with the store unchanged from
the first call. -/
theorem c6_loadUserProfile_default_then_stable
    (st : Store) (uid : String) (n n' : Nat) (r r' iso iso' : String)
    (huid : getItem st "cognitive_user_id" = some (.nonJson uid))
    (hne : uid ≠ "")
    (hprof : getItem st (profileKey uid) = none) :
    loadUserProfile st n r iso
      = (defaultProfile uid iso,
         setItem st (profileKey uid) (.jsonOf (defaultProfile uid iso))) ∧
    loadUserProfile
        (setItem st (profileKey uid) (.jsonOf (defaultProfile uid iso)))
        n' r' iso'
      = (defaultProfile uid iso,
         setItem st (profileKey uid) (.jsonOf (defaultProfile uid iso))) := by
  constructor
  · exact loadUserProfile_absent st uid n r iso huid hne hprof
  · apply loadUserProfile_stored _ uid _ n' r' iso'
    · rw [getItem_setItem_ne st _ _ _ (userIdKey_ne_profileKey uid)]
      exact huid
    · exact hne
    · exact getItem_setItem_self st (profileKey uid) _

theorem c6_loadUserProfile_default_then_stable_witness :
    loadUserProfile stUser 8 "zzzzzzzzz" "2026-02-02T00:00:00.000Z"
      = (defaultProfile "user_1_abcdefghi" "2026-02-02T00:00:00.000Z",
         setItem stUser (profileKey "user_1_abcdefghi")
           (.jsonOf (defaultProfile "user_1_abcdefghi" "2026-02-02T00:00:00.000Z"))) ∧
    loadUserProfile
        (setItem stUser (profileKey "user_1_abcdefghi")
          (.jsonOf (defaultProfile "user_1_abcdefghi" "2026-02-02T00:00:00.000Z")))
        9 "yyyyyyyyy" "2026-03-03T00:00:00.000Z"
      = (defaultProfile "user_1_abcdefghi" "2026-02-02T00:00:00.000Z",
         setItem stUser (profileKey "user_1_abcdefghi")
           (.jsonOf (defaultProfile "user_1_abcdefghi" "2026-02-02T00:00:00.000Z"))) :=
  c6_loadUserProfile_default_then_stable stUser "user_1_abcdefghi"
    8 9 "zzzzzzzzz" "yyyyyyyyy" "2026-02-02T00:00:00.000Z" "2026-03-03T00:00:00.000Z"
    rfl (by decide) rfl

/-- Claim C7: for every profile already persisted under the current
user identifier's profile key as its JSON serialization,
`loadUserProfile` returns the stored profile (the round trip through
serialization is the identity) and leaves the store unchanged — it
neither constructs nor persists a default profile. -/
theorem c7_loadUserProfile_returns_stored
    (st : Store) (uid : String) (p : Json) (n : Nat) (r iso : String)
    (huid : getItem st "cognitive_user_id" = some (.nonJson uid))
    (hne : uid ≠ "")
    (hprof : getItem st (profileKey uid) = some (.jsonOf p)) :
    loadUserProfile st n r iso = (p, st) :=
  loadUserProfile_stored st uid p n r iso huid hne hprof

theorem c7_loadUserProfile_returns_stored_witness :
    loadUserProfile stWithProfile 8 "zzzzzzzzz" "2026-02-02T00:00:00.000Z"
      = (profA, stWithProfile) :=
  c7_loadUserProfile_returns_stored stWithProfile "user_1_abcdefghi" profA
    8 "zzzzzzzzz" "2026-02-02T00:00:00.000Z" rfl (by decide) rfl

/-- Claim C10: when the stored profile blob for the current user
identifier is not valid JSON, `loadUserProfile` does not propagate the
parse failure: the corrupt blob is discarded, a fresh default profile
is built, its serialization overwrites the stored blob, and the
default is returned. -/
theorem c10_loadUserProfile_corrupt_blob
    (st : Store) (uid s : String) (n : Nat) (r iso : String)
    (huid : getItem st "cognitive_user_id" = some (.nonJson uid))
    (hne : uid ≠ "") (hs : s ≠ "")
    (hprof : getItem st (profileKey uid) = some (.nonJson s)) :
    loadUserProfile st n r iso
      = (defaultProfile uid iso,
         setItem st (profileKey uid) (.jsonOf (defaultProfile uid iso))) :=
  loadUserProfile_corrupt st uid s n r iso huid hne hs hprof

theorem c10_loadUserProfile_corrupt_blob_witness :
    loadUserProfile stCorrupt 8 "zzzzzzzzz" "2026-02-02T00:00:00.000Z"
      = (defaultProfile "user_1_abcdefghi" "2026-02-02T00:00:00.000Z",
         setItem stCorrupt (profileKey "user_1_abcdefghi")
           (.jsonOf (defaultProfile "user_1_abcdefghi" "2026-02-02T00:00:00.000Z"))) :=
  c10_loadUserProfile_corrupt_blob stCorrupt "user_1_abcdefghi" "corrupt blob"
    8 "zzzzzzzzz" "2026-02-02T00:00:00.000Z" rfl (by decide) (by decide) rfl

/-- Claim C5: `init` runs its five steps in the fixed order health
check, create session, load-or-create profile, initialize
visualizations, start tracking: the executed trace is always a prefix
of that order (so a failure at any step prevents every later step from
running); success means all five steps ran and no error overlay is
shown; on failure `init` returns false and shows a user-visible error
overlay that offers a Retry action. -/
theorem c5_init_order_short_circuit (env : InitEnv) (st : Store) :
    (∃ k, (init env st).executed = initOrder.take k) ∧
    ((init env st).ok = true ↔ (init env st).errorShown = none) ∧
    ((init env st).ok = true → (init env st).executed = initOrder) ∧
    ((init env st).ok = false →
      ∃ ov, (init env st).errorShown = some ov ∧ ov.hasRetryButton = true) := by
  cases h1 : healthCheckStep env.healthFetch with
  | error msg =>
    have hr : init env st = initFail st 1 msg := by
      simp [init, h1]
    rw [hr]
    exact ⟨⟨1, rfl⟩, by simp [initFail], by simp [initFail],
      fun _ => ⟨showError msg, rfl, rfl⟩⟩
  | ok u =>
    cases u
    rcases h2 : startNewSession env st with ⟨res, st1⟩
    cases res with
    | error msg =>
      have hr : init env st = initFail st1 2 msg := by
        simp [init, h1, h2]
      rw [hr]
      exact ⟨⟨2, rfl⟩, by simp [initFail], by simp [initFail],
        fun _ => ⟨showError msg, rfl, rfl⟩⟩
    | ok session =>
      rcases h3 : loadUserProfile st1 env.nowMs env.rand env.nowIso with ⟨pj, st2⟩
      cases h4 : env.vizResult with
      | error msg =>
        have hr : init env st = initFail st2 4 msg := by
          simp [init, h1, h2, h3, h4]
        rw [hr]
        exact ⟨⟨4, rfl⟩, by simp [initFail], by simp [initFail],
          fun _ => ⟨showError msg, rfl, rfl⟩⟩
      | ok u2 =>
        cases u2
        cases h5 : env.analyticsResult with
        | error msg =>
          have hr : init env st = initFail st2 5 msg := by
            simp [init, h1, h2, h3, h4, h5]
          rw [hr]
          exact ⟨⟨5, rfl⟩, by simp [initFail], by simp [initFail],
            fun _ => ⟨showError msg, rfl, rfl⟩⟩
        | ok u3 =>
          cases u3
          have hr : init env st
              = { ok := true, executed := initOrder, errorShown := none,
                  finalStore := st2, sessionVal := some session,
                  profileVal := some pj } := by
            simp [init, h1, h2, h3, h4, h5]
          rw [hr]
          exact ⟨⟨5, rfl⟩, by simp, fun _ => rfl, by simp⟩

theorem c5_init_order_short_circuit_witness :
    (init envDown []).ok = false ∧
    (init envDown []).executed = initOrder.take 1 ∧
    (∃ ov, (init envDown []).errorShown = some ov ∧ ov.hasRetryButton = true) :=
  ⟨rfl, rfl, (c5_init_order_short_circuit envDown []).2.2.2 rfl⟩

end CognitiveMirrors
